import Mathlib

/-!
Shallow embedding of the asynchronous ads-fetch job subsystem of the
adsurveillance-api backend (src/app/api/ads_refresh.py and
src/app/api/ads_status.py).

Modelling conventions:
* Timestamps are rationals (seconds since an arbitrary epoch).  The Python
  code stores ISO strings and parses them with `parse_timestamp`, treating a
  parse failure as absence; we model a stored timestamp directly as
  `Option ℚ`, where `none` covers both a missing and an unparseable value.
* Python free-text strings (logs, error messages) are `List Char`, so that
  the Python slice `s[:n]` is `List.take n` and `len s` is `List.length`.
  Identifier-like fields (job_id, user_id, status, platform) stay `String`;
  they are only compared for equality.
* The Supabase `ads_fetch_jobs` table is a `List Job`; updates keyed on
  `job_id` are modelled by mapping over the list, and partial updates merge
  fields into the existing record.
* Python `round(x, 1)` is round-half-to-even at one decimal on ℚ, and
  Python `int(x)` on a float is truncation toward zero, modelled by `truncQ`.
-/

namespace AdsJobs

/-- A row of the `ads_fetch_jobs` table. -/
structure Job where
  job_id : String
  user_id : String
  status : String := "pending"
  platform : String := "all"
  total_competitors : Option Nat := none
  ads_fetched : Nat := 0
  start_time : Option ℚ := none
  end_time : Option ℚ := none
  duration_seconds : Option ℤ := none
  logs : Option (List Char) := none
  error_message : Option (List Char) := none
  created_at : Option ℚ := none
  updated_at : Option ℚ := none
deriving Repr, DecidableEq

/-- Round-half-to-even to an integer, as Python `round` does. -/
def roundHalfEven (q : ℚ) : ℤ :=
  if q - ⌊q⌋ < 1/2 then ⌊q⌋
  else if 1/2 < q - ⌊q⌋ then ⌊q⌋ + 1
  else if ⌊q⌋ % 2 = 0 then ⌊q⌋ else ⌊q⌋ + 1

/-- Python `round(x, 1)`: round to one decimal place. -/
def round1 (q : ℚ) : ℚ := (roundHalfEven (10 * q) : ℚ) / 10

/-- Python `int(x)` applied to a real value: truncation toward zero. -/
def truncQ (q : ℚ) : ℤ := if q < 0 then ⌈q⌉ else ⌊q⌋

/-- The final `return 0 if status == 'pending' else 5` line of
`calculate_progress` in ads_status.py. -/
def progress_fallback (status : String) : ℚ :=
  if status = "pending" then 0 else 5

/-- `calculate_progress` from ads_status.py: progress percentage from job
status, start time and the heuristic total-time estimate. -/
def calculate_progress (job : Job) (now : ℚ) : ℚ :=
  if job.status = "completed" then 100
  else if job.status = "failed" then 0
  else if job.status = "running" then
    match job.start_time with
    | some start_dt =>
      let elapsed := now - start_dt
      let platforms_count : ℚ := if job.platform = "all" then 4 else 1
      let total_competitors : ℚ := (job.total_competitors.getD 1 : ℚ)
      let estimated_total := min (total_competitors * 30 * platforms_count) 300
      if estimated_total > 0 then round1 (min 95 (elapsed / estimated_total * 100))
      else progress_fallback job.status
    | none => progress_fallback job.status
  else progress_fallback job.status

/-- `format_duration` from ads_status.py.  The input is
`job.get('duration_seconds')`, so it may be absent; `if not seconds`
treats both `None` and `0` as falsy. -/
def format_duration (seconds : Option ℤ) : Option String :=
  match seconds with
  | none => none
  | some s =>
    if s = 0 then none
    else if s < 60 then some (toString s ++ "s")
    else if s < 3600 then
      some (toString (s.fdiv 60) ++ "m " ++ toString (s.fmod 60) ++ "s")
    else
      some (toString (s.fdiv 3600) ++ "h " ++ toString ((s.fmod 3600).fdiv 60) ++ "m")

/-- The duration computed inside `format_job_for_display`: when
`duration_seconds` is falsy (absent or 0) and both timestamps are present
and parseable, it is backfilled from `end_time - start_time`. -/
def display_duration (job : Job) : Option ℤ :=
  if job.duration_seconds.getD 0 = 0 then
    match job.start_time, job.end_time with
    | some s, some e => some (truncQ (e - s))
    | _, _ => job.duration_seconds
  else job.duration_seconds

/-- The fields of the `format_job_for_display` output (ads_status.py) the
claims are about: the wrapped record, the progress value, and the
duration fields (`duration_formatted` is only set when the duration is
truthy, i.e. present and nonzero). -/
structure DisplayJob where
  job : Job
  progress : ℚ
  duration_seconds : Option ℤ
  duration_formatted : Option String
deriving Repr, DecidableEq

/-- `format_job_for_display` from ads_status.py (the projection to the
fields modelled by `DisplayJob`). -/
def format_job_for_display (job : Job) (now : ℚ) : DisplayJob :=
  let duration := display_duration job
  { job := job
    progress := calculate_progress job now
    duration_seconds := duration
    duration_formatted :=
      match duration with
      | some d => if d ≠ 0 then format_duration (some d) else none
      | none => none }

/-- The stuck-flag computation inside `get_ads_status` (ads_status.py):
only set for a `running` job with a parseable `start_time`; `none` means
the response carries no `stuck` key. -/
def stuck_flag (job : Job) (now : ℚ) : Option Bool :=
  if job.status = "running" then
    match job.start_time with
    | some s =>
      let running_for := now - s
      if running_for > 600 then some true else some false
    | none => none
  else none

/-- A single-job status response body: the formatted job plus the stuck flag. -/
structure Snapshot where
  display : DisplayJob
  stuck : Option Bool
deriving Repr, DecidableEq

/-- Outcome of `get_ads_status`: 404, 403, or a 200 with a snapshot. -/
inductive StatusResult where
  | notFound
  | forbidden
  | ok (snap : Snapshot)
deriving Repr, DecidableEq

/-- `get_ads_status` from ads_status.py.  Authentication is optional: the
requester is `some uid` when a valid token was presented, otherwise
`none`, and the ownership check only runs for an authenticated requester. -/
def get_ads_status (store : List Job) (requester : Option String) (jid : String)
    (now : ℚ) : StatusResult :=
  match store.find? (fun j => j.job_id == jid) with
  | none => .notFound
  | some job =>
    match requester with
    | some uid =>
      if job.user_id ≠ uid then .forbidden
      else .ok ⟨format_job_for_display job now, stuck_flag job now⟩
    | none => .ok ⟨format_job_for_display job now, stuck_flag job now⟩

/-- `get_batch_status` from ads_status.py: fetch the requested ids, then,
when a requester is authenticated, silently keep only the jobs they own. -/
def get_batch_status (store : List Job) (requester : Option String)
    (job_ids : List String) (now : ℚ) : List DisplayJob :=
  let jobs := store.filter (fun j => decide (j.job_id ∈ job_ids))
  let owned :=
    match requester with
    | some uid => jobs.filter (fun (j : Job) => j.user_id == uid)
    | none => jobs
  owned.map (fun j => format_job_for_display j now)

/-- The per-job duration formatting inside `get_user_jobs` in
ads_refresh.py: an inline copy of the duration formatter that renders
falsy durations as the string N/A. -/
def user_jobs_duration_formatted (job : Job) : String :=
  match job.duration_seconds with
  | some d =>
    if d ≠ 0 then
      (if d < 60 then toString d ++ "s"
       else if d < 3600 then toString (d.fdiv 60) ++ "m " ++ toString (d.fmod 60) ++ "s"
       else toString (d.fdiv 3600) ++ "h " ++ toString ((d.fmod 3600).fdiv 60) ++ "m")
    else "N/A"
  | none => "N/A"

/-- Outcome of the `/api/ads-refresh` endpoint (`refresh_ads` in
ads_refresh.py): 401, 503, 409 (with the conflicting records), or a 202
with the fields of the success body the claims are about. -/
inductive RefreshResult where
  | unauthorized
  | fetcherUnavailable
  | conflict (existing_jobs : List Job)
  | started (job_id : String) (estimated_time : Nat) (competitors_count : Nat)
deriving Repr, DecidableEq

/-- The record inserted by `create_job_record` (ads_refresh.py):
`competitors_count` is the length of `get_user_competitors(user_id)`,
the user's active-competitor list, read at creation time. -/
def create_job_record (uid jid platform : String) (competitors_count : Nat)
    (now : ℚ) : Job :=
  { job_id := jid, user_id := uid, status := "pending", platform := platform,
    total_competitors := some competitors_count, ads_fetched := 0,
    start_time := some now, created_at := some now, updated_at := some now }

/-- The estimated-time computation in `refresh_ads`: 30 seconds per
competitor, times 4 when platform is `all`, capped at 300. -/
def estimate_fetch_time (competitors_count : Nat) (platform : String) : Nat :=
  min (if platform = "all" then competitors_count * 30 * 4 else competitors_count * 30) 300

/-- `refresh_ads` from ads_refresh.py.  `user` is the verified token
subject (`none` covers both a missing and an invalid token, the two 401
paths); `fetcherAvailable` is the module-level availability flag computed
once at startup; `activeCompetitors` is the active-competitor count per
user; `newJobId` stands for the freshly generated uuid4. -/
def refresh_ads (fetcherAvailable : Bool) (store : List Job) (user : Option String)
    (platform : String) (force : Bool) (activeCompetitors : String → Nat)
    (newJobId : String) (now : ℚ) : RefreshResult × List Job :=
  match user with
  | none => (.unauthorized, store)
  | some uid =>
    if fetcherAvailable = false then (.fetcherUnavailable, store)
    else
      let running_jobs := store.filter (fun (j : Job) => j.user_id == uid && j.status == "running")
      if force = false ∧ running_jobs.length > 0 then (.conflict running_jobs, store)
      else
        let competitors_count := activeCompetitors uid
        (.started newJobId (estimate_fetch_time competitors_count platform) competitors_count,
         store ++ [create_job_record uid newJobId platform competitors_count now])

/-- Outcome of `/api/cancel-job/<job_id>` (`cancel_job` in ads_refresh.py):
404, 403, 400 (carrying the current status), or a 200. -/
inductive CancelResult where
  | notFound
  | forbidden
  | invalidState (current : String)
  | ok
deriving Repr, DecidableEq

/-- `cancel_job` from ads_refresh.py: owner-only, only a `pending` or
`running` job may be cancelled, and cancellation writes status `failed`
with reason "Cancelled by user" and an `end_time`. -/
def cancel_job (store : List Job) (uid jid : String) (now : ℚ) :
    CancelResult × List Job :=
  match store.find? (fun j => j.job_id == jid) with
  | none => (.notFound, store)
  | some job =>
    if job.user_id ≠ uid then (.forbidden, store)
    else if job.status ≠ "pending" ∧ job.status ≠ "running" then
      (.invalidState job.status, store)
    else
      (.ok, store.map (fun j =>
        if j.job_id == jid then
          { j with status := "failed", error_message := some "Cancelled by user".data,
                   end_time := some now, updated_at := some now }
        else j))

/-- The fixed reason written by the stuck-job cleanup. -/
def cleanup_message : List Char := "Job was stuck and automatically cleaned up".data

/-- The selection predicate of `cleanup_stuck_jobs`: the requesting user's
`running` jobs whose `start_time` is strictly older than the cutoff.  A
job without a `start_time` is never selected (the SQL `lt` filter skips
NULL values). -/
def stuck_pred (uid : String) (cutoff : ℚ) (j : Job) : Bool :=
  j.user_id == uid && j.status == "running" &&
    (match j.start_time with
     | some s => decide (s < cutoff)
     | none => false)

/-- The body of the `/api/cleanup-stuck-jobs` 200 response: the number of
updated rows and the ids of the jobs selected for cleanup. -/
structure CleanupResponse where
  cleaned : Nat
  job_ids : List String
deriving Repr, DecidableEq

/-- `cleanup_stuck_jobs` from ads_status.py: cutoff is now minus 30
minutes; matching jobs are force-failed with a fixed reason and
`end_time = now`; with no match the store is untouched and the response
reports zero cleaned jobs. -/
def cleanup_stuck_jobs (store : List Job) (uid : String) (now : ℚ) :
    CleanupResponse × List Job :=
  let cutoff := now - 1800
  let stuck_jobs := store.filter (stuck_pred uid cutoff)
  if stuck_jobs.isEmpty then ({ cleaned := 0, job_ids := [] }, store)
  else
    let job_ids := stuck_jobs.map (fun j => j.job_id)
    let newStore := store.map (fun (j : Job) =>
      if j.job_id ∈ job_ids then
        { j with status := "failed", error_message := some cleanup_message,
                 end_time := some now, updated_at := some now }
      else j)
    let updated := store.filter (fun (j : Job) => decide (j.job_id ∈ job_ids))
    ({ cleaned := updated.length, job_ids := job_ids }, newStore)

/-- The `(success, logs, ads_count)` triple returned by
`AdsFetcher.run_for_user` or synthesized by the executor. -/
structure FetchOutcome where
  success : Bool
  logs : List Char
  ads_count : Nat
deriving Repr, DecidableEq

/-- The marker appended when logs are truncated. -/
def truncation_marker : List Char := "\n...[truncated]".data

/-- The deterministic failure log synthesized by `run_background_fetch`
when the fetcher is unavailable (`ts` stands for the interpolated
timestamp text). -/
def diagnostic_log (jid uid platform : String) (ts : List Char) : List Char :=
  "=== ADS FETCHING DISABLED ===\n".data ++
  "Job ID: ".data ++ jid.data ++ "\n".data ++
  "User ID: ".data ++ uid.data ++ "\n".data ++
  "Platform: ".data ++ platform.data ++ "\n".data ++
  "Error: Ads fetcher not properly configured\n".data ++
  "Timestamp: ".data ++ ts ++ "\n".data ++
  "\n💡 To fix:\n".data ++
  "   1. Ensure ads_fetcher.py exists in ad_fetch_service/\n".data ++
  "   2. Check the AdsFetcher class is properly implemented\n".data

/-- The fetch step of `run_background_fetch`: call the adapter when
available, otherwise synthesize the diagnostic failure without invoking
anything. -/
def run_for_job (fetcherAvailable : Bool) (fetch : String → String → FetchOutcome)
    (jid uid platform : String) (ts : List Char) : FetchOutcome :=
  if fetcherAvailable then fetch uid platform
  else { success := false, logs := diagnostic_log jid uid platform ts, ads_count := 0 }

/-- The 10 KB log cap of `run_background_fetch`. -/
def truncate_logs (raw : List Char) : List Char :=
  if raw.length > 10000 then raw.take 10000 ++ truncation_marker else raw

/-- The `update_data` dict assembled by `run_background_fetch` before the
final merge write (`none` fields are keys that are not set). -/
structure FinalUpdate where
  status : String
  ads_fetched : Nat
  end_time : ℚ
  logs : Option (List Char)
  error_message : Option (List Char)
  duration_seconds : Option ℤ
deriving Repr, DecidableEq

/-- Assembly of `update_data` in `run_background_fetch` (ads_refresh.py):
status from success, truncated logs, error message for failures, and a
duration from the re-read `start_time` when it parses. -/
def build_final_update (outcome : FetchOutcome) (start_time : Option ℚ) (now : ℚ) :
    FinalUpdate :=
  let logs := truncate_logs outcome.logs
  { status := if outcome.success then "completed" else "failed"
    ads_fetched := outcome.ads_count
    end_time := now
    logs := if outcome.logs ≠ [] then some logs else none
    error_message :=
      if outcome.success = false ∧ logs ≠ [] then
        some (if logs.length > 500 then logs.take 500 else logs)
      else none
    duration_seconds := start_time.map (fun s => truncQ (now - s)) }

/-- Merge a `FinalUpdate` into a job record (unset keys keep the stored
values, per the partial-update semantics of the store). -/
def apply_update (j : Job) (u : FinalUpdate) (now : ℚ) : Job :=
  { j with status := u.status, ads_fetched := u.ads_fetched,
           end_time := some u.end_time, updated_at := some now,
           logs := match u.logs with | some l => some l | none => j.logs,
           error_message := match u.error_message with | some e => some e | none => j.error_message,
           duration_seconds := match u.duration_seconds with | some d => some d | none => j.duration_seconds }

/-- `run_background_fetch` from ads_refresh.py: flip the job to `running`,
run the fetch step, then finalize the record with a single merge update. -/
def run_background_fetch (fetcherAvailable : Bool)
    (fetch : String → String → FetchOutcome) (store : List Job)
    (jid uid platform : String) (ts : List Char) (now : ℚ) : List Job :=
  let store1 := store.map (fun j =>
    if j.job_id == jid then { j with status := "running", updated_at := some now } else j)
  let outcome := run_for_job fetcherAvailable fetch jid uid platform ts
  let stored_start := (store1.find? (fun j => j.job_id == jid)).bind (fun j => j.start_time)
  let u := build_final_update outcome stored_start now
  store1.map (fun j => if j.job_id == jid then apply_update j u now else j)

/-!  Concrete jobs used by witnesses and counterexamples. -/

/-- A freshly created job, still pending. -/
def pendingJob : Job := { job_id := "cx-pending", user_id := "alice" }

/-- A running job of user alice with three competitors on all platforms. -/
def progressJob : Job :=
  { job_id := "w-running", user_id := "alice", status := "running",
    platform := "all", total_competitors := some 3, start_time := some 0 }

/-- A running job that started at time 0. -/
def stuckJob : Job :=
  { job_id := "w-stuck", user_id := "alice", status := "running", start_time := some 0 }

/-!  Helper lemmas about rounding. -/

/-- Round-half-to-even never exceeds an integer bound that the argument
respects. -/
theorem roundHalfEven_le {q : ℚ} {n : ℤ} (h : q ≤ (n : ℚ)) : roundHalfEven q ≤ n := by
  have hf : ⌊q⌋ ≤ n := by
    have := Int.floor_mono h
    simpa using this
  unfold roundHalfEven
  by_cases h1 : q - ⌊q⌋ < 1/2
  · rw [if_pos h1]; exact hf
  · have hge : (1:ℚ)/2 ≤ q - ⌊q⌋ := le_of_not_lt h1
    have hfn : ⌊q⌋ + 1 ≤ n := by
      rcases lt_or_eq_of_le hf with h2 | h2
      · omega
      · exfalso
        have hq : (⌊q⌋ : ℚ) + 1/2 ≤ q := by linarith
        rw [h2] at hq
        have : (n : ℚ) < q := by linarith
        linarith
    rw [if_neg h1]
    by_cases h2 : 1/2 < q - ⌊q⌋
    · rw [if_pos h2]; exact hfn
    · rw [if_neg h2]
      by_cases h3 : ⌊q⌋ % 2 = 0
      · rw [if_pos h3]; exact hf
      · rw [if_neg h3]; exact hfn

/-- Rounding to one decimal preserves the 95 bound. -/
theorem round1_le_95 {q : ℚ} (h : q ≤ 95) : round1 q ≤ 95 := by
  have h10 : 10 * q ≤ ((950 : ℤ) : ℚ) := by push_cast; linarith
  have hb := roundHalfEven_le h10
  have hc : ((roundHalfEven (10 * q) : ℤ) : ℚ) ≤ ((950 : ℤ) : ℚ) := by exact_mod_cast hb
  unfold round1
  push_cast at hc ⊢
  linarith

/-!  Claim theorems. -/

/-- C2 counterexample: the claim says a pending job reports progress 5,
but `calculate_progress` returns 0 for a pending job (its final line is
`return 0 if status == 'pending' else 5`). -/
theorem c2_pending_counterexample :
    calculate_progress pendingJob 0 = 0 ∧ calculate_progress pendingJob 0 ≠ 5 := by
  constructor <;> decide

/-- C2 (amended): completed jobs report progress 100, failed jobs 0,
pending jobs 0 (the nominal 5 is reserved for a running job whose start
time is missing or whose estimate is zero); a running job with a
parseable start time and positive estimate
min(300, total_competitors * 30 * (4 if platform = all else 1)) reports
min(95, 100 * elapsed / estimate) rounded to one decimal, hence never
above 95. -/
theorem c2_progress (job : Job) (now s est : ℚ)
    (hs : job.start_time = some s)
    (hest : est = min ((job.total_competitors.getD 1 : ℚ) * 30 *
      (if job.platform = "all" then 4 else 1)) 300) :
    (job.status = "completed" → calculate_progress job now = 100) ∧
    (job.status = "failed" → calculate_progress job now = 0) ∧
    (job.status = "pending" → calculate_progress job now = 0) ∧
    (job.status = "running" → 0 < est →
      calculate_progress job now = round1 (min 95 ((now - s) / est * 100)) ∧
      calculate_progress job now ≤ 95) := by
  refine ⟨fun h => by simp [calculate_progress, h], fun h => by simp [calculate_progress, h],
    fun h => by simp [calculate_progress, h, progress_fallback], fun h hpos => ?_⟩
  have hcp : calculate_progress job now = round1 (min 95 ((now - s) / est * 100)) := by
    simp only [calculate_progress, h, hs]
    rw [← hest]
    simp [if_pos hpos, gt_iff_lt, hpos]
  exact ⟨hcp, hcp ▸ round1_le_95 (min_le_left _ _)⟩

/-- Witness for C2 at a running job with 3 competitors on all platforms,
150 seconds in: estimate 300, progress 50, within the 95 cap. -/
theorem c2_progress_witness :
    calculate_progress progressJob 150 =
      round1 (min 95 ((150 - 0) / min ((progressJob.total_competitors.getD 1 : ℚ) * 30 *
        (if progressJob.platform = "all" then 4 else 1)) 300 * 100)) ∧
    calculate_progress progressJob 150 ≤ 95 :=
  (c2_progress progressJob 150 0 _ rfl rfl).2.2.2 rfl (by norm_num [progressJob])

/-- C8: for a running job with a parseable start time, the stuck flag in
the status snapshot is true exactly when more than 600 seconds have
elapsed, false otherwise, and the snapshot embeds the job record
unchanged (no transition is performed). -/
theorem c8_stuck (job : Job) (now s : ℚ) (h1 : job.status = "running")
    (h2 : job.start_time = some s) :
    (stuck_flag job now = some true ↔ 600 < now - s) ∧
    (stuck_flag job now = some false ↔ ¬ 600 < now - s) ∧
    (format_job_for_display job now).job = job := by
  have hdef : stuck_flag job now = if now - s > 600 then some true else some false := by
    simp [stuck_flag, h1, h2]
  refine ⟨?_, ?_, rfl⟩
  · rw [hdef]; by_cases h : 600 < now - s <;> simp [h, gt_iff_lt]
  · rw [hdef]; by_cases h : 600 < now - s <;> simp [h, gt_iff_lt]

/-- Witness for C8: started 700 seconds ago means stuck, 100 seconds ago
means not stuck, and the snapshot carries the unchanged record. -/
theorem c8_stuck_witness :
    stuck_flag stuckJob 700 = some true ∧
    stuck_flag { stuckJob with start_time := some 600 } 700 = some false ∧
    (format_job_for_display stuckJob 700).job = stuckJob :=
  ⟨(c8_stuck stuckJob 700 0 rfl rfl).1.mpr (by norm_num),
   (c8_stuck { stuckJob with start_time := some 600 } 700 600 rfl rfl).2.1.mpr (by norm_num),
   (c8_stuck stuckJob 700 0 rfl rfl).2.2⟩

/-- C9 counterexample: the claim quantifies over every integer s, but at
s = 0 the formatter returns no string at all rather than the "0s" the
s < 60 branch of the claim requires. -/
theorem c9_zero_counterexample :
    format_duration (some 0) = none ∧
    format_duration (some 0) ≠ some (toString (0:ℤ) ++ "s") := by
  constructor <;> decide

/-- C9 (amended): for every nonzero integer s the formatted duration is
"{s}s" when s < 60, "{m}m {s}s" with floor division by 60 when
60 ≤ s < 3600, and "{h}h {m}m" otherwise (s = 0 yields no string); in
particular 45, 65 and 3725 format as claimed. -/
theorem c9_format_duration (s : ℤ) (h : s ≠ 0) :
    (s < 60 → format_duration (some s) = some (toString s ++ "s")) ∧
    (60 ≤ s → s < 3600 →
      format_duration (some s) =
        some (toString (s.fdiv 60) ++ "m " ++ toString (s.fmod 60) ++ "s")) ∧
    (3600 ≤ s →
      format_duration (some s) =
        some (toString (s.fdiv 3600) ++ "h " ++ toString ((s.fmod 3600).fdiv 60) ++ "m")) ∧
    format_duration (some 45) = some "45s" ∧
    format_duration (some 65) = some "1m 5s" ∧
    format_duration (some 3725) = some "1h 2m" := by
  refine ⟨?_, ?_, ?_, by decide, by decide, by decide⟩
  · intro hlt; simp [format_duration, h, hlt]
  · intro hge hlt
    have h60 : ¬ s < 60 := not_lt.mpr hge
    simp [format_duration, h, h60, hlt]
  · intro hge
    have h60 : ¬ s < 60 := by omega
    have h3600 : ¬ s < 3600 := by omega
    simp [format_duration, h, h60, h3600]

/-- Witness for C9 at s = 65. -/
theorem c9_format_duration_witness :
    format_duration (some 65) =
      some (toString ((65:ℤ).fdiv 60) ++ "m " ++ toString ((65:ℤ).fmod 60) ++ "s") :=
  (c9_format_duration 65 (by decide)).2.1 (by decide) (by decide)

/-- A completed job with timestamps 300 seconds apart but no stored
`duration_seconds`: the display formatter backfills the duration. -/
def backfillJob : Job :=
  { job_id := "cx-backfill", user_id := "alice", status := "completed",
    start_time := some 0, end_time := some 300 }

/-- C10 counterexample: a job with absent `duration_seconds` but a
parseable timestamp pair gets a backfilled `duration_formatted` instead
of the omission the claim requires, and the formatter also produces a
string for a negative duration, contradicting only-strictly-positive. -/
theorem c10_counterexample :
    (format_job_for_display backfillJob 1000).duration_formatted = some "5m 0s" ∧
    format_duration (some (-1)) = some "-1s" := by
  have hd : display_duration backfillJob = some 300 := by
    have ht : truncQ (300:ℚ) = 300 := by
      unfold truncQ
      norm_num
    simp [display_duration, backfillJob, ht]
  constructor
  · have hproj : (format_job_for_display backfillJob 1000).duration_formatted =
        match display_duration backfillJob with
        | some d => if d ≠ 0 then format_duration (some d) else none
        | none => none := rfl
    rw [hproj, hd]
    decide
  · decide

/-- C10 (amended): the duration formatter returns no string exactly for a
zero or absent duration; the snapshot omits `duration_formatted` when
`duration_seconds` is absent or zero and no parseable start/end pair is
available for backfill; the jobs listing renders N/A exactly when
`duration_seconds` is absent or zero; a string is produced for every
nonzero (including negative) duration. -/
theorem c10_duration_display (job : Job) (now : ℚ) (d : ℤ) :
    format_duration none = none ∧
    format_duration (some 0) = none ∧
    ((job.duration_seconds = none ∨ job.duration_seconds = some 0) →
      (job.start_time = none ∨ job.end_time = none) →
      (format_job_for_display job now).duration_formatted = none) ∧
    ((job.duration_seconds = none ∨ job.duration_seconds = some 0) →
      user_jobs_duration_formatted job = "N/A") ∧
    (d ≠ 0 → (format_duration (some d)).isSome = true) := by
  refine ⟨rfl, by decide, ?_, ?_, ?_⟩
  · intro hdur hts
    have hg : job.duration_seconds.getD 0 = 0 := by rcases hdur with h | h <;> simp [h]
    have hdd : display_duration job = job.duration_seconds := by
      unfold display_duration
      rw [if_pos hg]
      rcases hts with h2 | h2
      · rw [h2]
      · rw [h2]
        all_goals cases job.start_time <;> rfl
    have hproj : (format_job_for_display job now).duration_formatted =
        match display_duration job with
        | some d2 => if d2 ≠ 0 then format_duration (some d2) else none
        | none => none := rfl
    rw [hproj, hdd]
    rcases hdur with h | h <;> simp [h]
  · intro hdur
    rcases hdur with h | h <;> simp [user_jobs_duration_formatted, h]
  · intro hd
    by_cases h60 : d < 60
    · simp [format_duration, hd, h60]
    · by_cases h36 : d < 3600 <;> simp [format_duration, hd, h60, h36]

/-- Witness for C10: a job with zero stored duration and no end time has
no formatted duration, renders N/A in the listing, and a nonzero
duration always formats. -/
theorem c10_duration_display_witness :
    (format_job_for_display { pendingJob with duration_seconds := some 0 } 0).duration_formatted
      = none ∧
    user_jobs_duration_formatted { pendingJob with duration_seconds := some 0 } = "N/A" ∧
    (format_duration (some 42)).isSome = true :=
  ⟨(c10_duration_display { pendingJob with duration_seconds := some 0 } 0 42).2.2.1
      (Or.inr rfl) (Or.inr rfl),
   (c10_duration_display { pendingJob with duration_seconds := some 0 } 0 42).2.2.2.1
      (Or.inr rfl),
   (c10_duration_display { pendingJob with duration_seconds := some 0 } 0 42).2.2.2.2
      (by decide)⟩

/-- C1 counterexample: with the fetch adapter unavailable, an
authenticated force=true request is rejected with the 503 service
signal and no job record is created, although the claim requires a new
pending job. -/
theorem c1_counterexample :
    refresh_ads false [] (some "alice") "all" true (fun _ => 3) "cx-job" 0 =
      (.fetcherUnavailable, []) := by decide

/-- C1 (amended): provided the fetch adapter availability flag is true,
a force=false request by a user with a running job is rejected with the
conflicting records and the store is unchanged, while force=true (or no
running job) appends exactly one new pending job carrying the fresh
job id and the user active-competitor count. -/
theorem c1_admission (store : List Job) (uid platform : String) (force : Bool)
    (activeCompetitors : String → Nat) (jid : String) (now : ℚ)
    (hfresh : ∀ j ∈ store, j.job_id ≠ jid) :
    (force = false →
      store.filter (fun (j : Job) => j.user_id == uid && j.status == "running") ≠ [] →
      refresh_ads true store (some uid) platform force activeCompetitors jid now =
        (.conflict (store.filter (fun (j : Job) => j.user_id == uid && j.status == "running")),
         store)) ∧
    ((force = true ∨
      store.filter (fun (j : Job) => j.user_id == uid && j.status == "running") = []) →
      refresh_ads true store (some uid) platform force activeCompetitors jid now =
        (.started jid (estimate_fetch_time (activeCompetitors uid) platform)
          (activeCompetitors uid),
         store ++ [create_job_record uid jid platform (activeCompetitors uid) now]) ∧
      (create_job_record uid jid platform (activeCompetitors uid) now).status = "pending" ∧
      (create_job_record uid jid platform (activeCompetitors uid) now).job_id = jid ∧
      (create_job_record uid jid platform (activeCompetitors uid) now).total_competitors =
        some (activeCompetitors uid) ∧
      (store ++ [create_job_record uid jid platform (activeCompetitors uid) now]).filter
        (fun (j : Job) => j.job_id == jid) =
          [create_job_record uid jid platform (activeCompetitors uid) now]) := by
  constructor
  · intro hforce hne
    have hlen : 0 <
        (store.filter (fun (j : Job) => j.user_id == uid && j.status == "running")).length :=
      List.length_pos.mpr hne
    simp only [refresh_ads]
    rw [if_neg (by simp), if_pos ⟨hforce, hlen⟩]
  · intro hcase
    have hcond : ¬ (force = false ∧ 0 <
        (store.filter (fun (j : Job) => j.user_id == uid && j.status == "running")).length) := by
      rcases hcase with h | h
      · rintro ⟨hf, _⟩; rw [h] at hf; exact absurd hf (by decide)
      · rintro ⟨_, hlen⟩; rw [h] at hlen; exact lt_irrefl 0 hlen
    refine ⟨?_, rfl, rfl, rfl, ?_⟩
    · simp only [refresh_ads]
      rw [if_neg (by simp), if_neg (by simpa using hcond)]
    · rw [List.filter_append]
      have h1 : store.filter (fun (j : Job) => j.job_id == jid) = [] := by
        rw [List.filter_eq_nil_iff]
        intro j hj
        simp [hfresh j hj]
      have h2 : [create_job_record uid jid platform (activeCompetitors uid) now].filter
          (fun (j : Job) => j.job_id == jid) =
          [create_job_record uid jid platform (activeCompetitors uid) now] := by
        simp [create_job_record]
      rw [h1, h2, List.nil_append]

/-- A running job of user alice, used by the admission witness. -/
def runningJob : Job :=
  { job_id := "j-run", user_id := "alice", status := "running", start_time := some 0 }

/-- Witness for C1: with the adapter available, a second force=false
request conflicts with the running job, and on an empty store a pending
job is created with a 300-second estimate for 3 competitors on all
platforms. -/
theorem c1_admission_witness :
    refresh_ads true [runningJob] (some "alice") "all" false (fun _ => 3) "w-new" 0 =
      (.conflict [runningJob], [runningJob]) ∧
    refresh_ads true [] (some "alice") "all" false (fun _ => 3) "w-new" 0 =
      (.started "w-new" 300 3, [create_job_record "alice" "w-new" "all" 3 0]) := by
  constructor
  · have h := (c1_admission [runningJob] "alice" "all" false (fun _ => 3) "w-new" 0
      (by decide)).1 rfl (by decide)
    simpa using h
  · have h := (c1_admission [] "alice" "all" false (fun _ => 3) "w-new" 0
      (by decide)).2 (Or.inr rfl)
    simpa using h.1

/-- A completed job owned by alice, used for the ownership claims. -/
def aliceJob : Job := { job_id := "j-owned", user_id := "alice", status := "completed" }

/-- C3 counterexample: an unauthenticated single-job status request for a
job owned by alice succeeds with the full snapshot instead of requiring
ownership, and a batch request by bob for the same job silently returns
an empty list rather than Forbidden. -/
theorem c3_counterexample :
    get_ads_status [aliceJob] none "j-owned" 0 =
      .ok ⟨format_job_for_display aliceJob 0, stuck_flag aliceJob 0⟩ ∧
    aliceJob.user_id = "alice" ∧
    get_batch_status [aliceJob] (some "bob") ["j-owned"] 0 = [] :=
  ⟨rfl, rfl, rfl⟩

/-- C3 (amended): an unknown job id yields NotFound; an authenticated
non-owner single-job lookup yields Forbidden, distinct from NotFound,
and the owner gets the snapshot; an unauthenticated lookup returns the
snapshot with no ownership check; batch lookups silently drop jobs not
owned by the authenticated requester instead of yielding Forbidden. -/
theorem c3_ownership (store : List Job) (uid jid : String) (job_ids : List String) (now : ℚ) :
    (store.find? (fun j => j.job_id == jid) = none →
      get_ads_status store (some uid) jid now = .notFound ∧
      get_ads_status store none jid now = .notFound) ∧
    (∀ job, store.find? (fun j => j.job_id == jid) = some job →
      (job.user_id ≠ uid → get_ads_status store (some uid) jid now = .forbidden) ∧
      (job.user_id = uid → get_ads_status store (some uid) jid now =
        .ok ⟨format_job_for_display job now, stuck_flag job now⟩) ∧
      get_ads_status store none jid now =
        .ok ⟨format_job_for_display job now, stuck_flag job now⟩) ∧
    (∀ d ∈ get_batch_status store (some uid) job_ids now, d.job.user_id = uid) := by
  refine ⟨?_, ?_, ?_⟩
  · intro hnone
    constructor <;> simp [get_ads_status, hnone]
  · intro job hfind
    refine ⟨?_, ?_, ?_⟩
    · intro hne
      simp [get_ads_status, hfind, hne]
    · intro heq
      simp [get_ads_status, hfind, heq]
    · simp [get_ads_status, hfind]
  · intro d hd
    simp only [get_batch_status] at hd
    obtain ⟨i, hi, rfl⟩ := List.mem_map.mp hd
    have hpred := (List.mem_filter.mp hi).2
    have hui : i.user_id = uid := by simpa using hpred
    simpa [format_job_for_display] using hui

/-- Witness for C3: bob is forbidden from reading the job alice owns,
alice reads it, and an unknown id is NotFound. -/
theorem c3_ownership_witness :
    get_ads_status [aliceJob] (some "bob") "j-owned" 0 = .forbidden ∧
    get_ads_status [aliceJob] (some "alice") "j-owned" 0 =
      .ok ⟨format_job_for_display aliceJob 0, stuck_flag aliceJob 0⟩ ∧
    get_ads_status [aliceJob] (some "alice") "j-missing" 0 = .notFound :=
  ⟨((c3_ownership [aliceJob] "bob" "j-owned" [] 0).2.1 aliceJob (by decide)).1 (by decide),
   ((c3_ownership [aliceJob] "alice" "j-owned" [] 0).2.1 aliceJob (by decide)).2.1 rfl,
   ((c3_ownership [aliceJob] "alice" "j-missing" [] 0).1 (by decide)).1⟩

/-- The synthesized diagnostic log is never empty (it opens with a fixed
header). -/
theorem diagnostic_log_ne_nil (jid uid platform : String) (ts : List Char) :
    diagnostic_log jid uid platform ts ≠ [] := by
  unfold diagnostic_log
  exact List.append_ne_nil_of_right_ne_nil _ (by decide)

/-- C4: with the adapter unavailable, the fetch step synthesizes the
fixed diagnostic failure (success false, zero ads) without consulting
any fetch function, the whole background execution is identical for any
two fetch functions, and the job is finalized as failed with zero ads
and the diagnostic log persisted. -/
theorem c4_unavailable (fetch fetch2 : String → String → FetchOutcome)
    (store : List Job) (jid uid platform : String) (ts : List Char) (now : ℚ) :
    run_for_job false fetch jid uid platform ts =
      { success := false, logs := diagnostic_log jid uid platform ts, ads_count := 0 } ∧
    run_background_fetch false fetch store jid uid platform ts now =
      run_background_fetch false fetch2 store jid uid platform ts now ∧
    ∀ j ∈ run_background_fetch false fetch store jid uid platform ts now,
      j.job_id = jid → j.status = "failed" ∧ j.ads_fetched = 0 ∧
        j.logs = some (truncate_logs (diagnostic_log jid uid platform ts)) := by
  refine ⟨rfl, rfl, ?_⟩
  intro j hj hjid
  simp only [run_background_fetch] at hj
  obtain ⟨i, hi, rfl⟩ := List.mem_map.mp hj
  by_cases hb : (i.job_id == jid) = true
  · rw [if_pos hb]
    refine ⟨?_, ?_, ?_⟩ <;>
      simp [apply_update, build_final_update, run_for_job,
        diagnostic_log_ne_nil jid uid platform ts]
  · rw [if_neg hb] at hjid ⊢
    exact absurd (beq_iff_eq.mpr hjid) hb

/-- A pending job with no start time, executed by the C4 witness. -/
def execJob : Job := { job_id := "j-exec", user_id := "alice" }

/-- A fetch function the C4 witness shows is never consulted. -/
def fetchA : String → String → FetchOutcome := fun _ _ => ⟨true, "ok".data, 5⟩

/-- A second, different fetch function for the determinism conclusion. -/
def fetchB : String → String → FetchOutcome := fun _ _ => ⟨true, "other".data, 7⟩

/-- The record the C4 witness expects after executing with the adapter
unavailable. -/
def failedExecJob : Job :=
  { job_id := "j-exec", user_id := "alice", status := "failed",
    ads_fetched := 0, end_time := some 50, updated_at := some 50,
    logs := some (diagnostic_log "j-exec" "alice" "meta" "ts".data),
    error_message := some (diagnostic_log "j-exec" "alice" "meta" "ts".data) }

set_option maxRecDepth 4000 in
/-- Witness for C4: the concrete execution of a pending job with the
adapter unavailable yields the failed record with zero ads and the
diagnostic log. -/
theorem c4_unavailable_witness :
    failedExecJob.status = "failed" ∧ failedExecJob.ads_fetched = 0 ∧
    failedExecJob.logs = some (truncate_logs (diagnostic_log "j-exec" "alice" "meta" "ts".data)) :=
  (c4_unavailable fetchA fetchB [execJob] "j-exec" "alice" "meta" "ts".data 50).2.2
    failedExecJob (by decide) rfl

/-- C5: an owner cancellation of a pending or running job succeeds and
force-fails the record with the cancelled-by-user reason and an end
time; cancelling an already-terminal job is rejected with the current
status and the store is untouched. -/
theorem c5_cancel (store : List Job) (uid jid : String) (now : ℚ) (job : Job)
    (hfind : store.find? (fun j => j.job_id == jid) = some job)
    (howner : job.user_id = uid) :
    ((job.status = "pending" ∨ job.status = "running") →
      (cancel_job store uid jid now).1 = .ok ∧
      ∀ j ∈ (cancel_job store uid jid now).2, j.job_id = jid →
        j.status = "failed" ∧ j.error_message = some "Cancelled by user".data ∧
        j.end_time = some now) ∧
    ((job.status = "completed" ∨ job.status = "failed") →
      (cancel_job store uid jid now).1 = .invalidState job.status ∧
      (cancel_job store uid jid now).2 = store) := by
  constructor
  · intro hact
    have hcond : ¬ (job.status ≠ "pending" ∧ job.status ≠ "running") := by
      rcases hact with h | h
      · rintro ⟨h1, _⟩; exact h1 h
      · rintro ⟨_, h2⟩; exact h2 h
    have hres : cancel_job store uid jid now =
        (.ok, store.map (fun j =>
          if j.job_id == jid then
            { j with status := "failed", error_message := some "Cancelled by user".data,
                     end_time := some now, updated_at := some now }
          else j)) := by
      simp only [cancel_job, hfind]
      rw [if_neg (by simp [howner]), if_neg hcond]
    rw [hres]
    refine ⟨rfl, ?_⟩
    intro j hj hjid
    obtain ⟨i, hi, rfl⟩ := List.mem_map.mp hj
    by_cases hb : (i.job_id == jid) = true
    · rw [if_pos hb]
      exact ⟨rfl, rfl, rfl⟩
    · rw [if_neg hb] at hjid ⊢
      exact absurd (beq_iff_eq.mpr hjid) hb
  · intro hterm
    have hcond : job.status ≠ "pending" ∧ job.status ≠ "running" := by
      rcases hterm with h | h <;> rw [h] <;> exact ⟨by decide, by decide⟩
    have hres : cancel_job store uid jid now = (.invalidState job.status, store) := by
      simp only [cancel_job, hfind]
      rw [if_neg (by simp [howner]), if_pos hcond]
    rw [hres]
    exact ⟨rfl, rfl⟩

/-- A running job of alice, cancelled by the C5 witness. -/
def activeJob : Job :=
  { job_id := "j-active", user_id := "alice", status := "running", start_time := some 0 }

/-- A completed job of alice, whose cancellation the C5 witness shows is
rejected. -/
def doneJob : Job := { job_id := "j-done", user_id := "alice", status := "completed" }

/-- Witness for C5: cancelling the running job succeeds; cancelling the
completed job is rejected with its status and leaves the store
unchanged. -/
theorem c5_cancel_witness :
    (cancel_job [activeJob] "alice" "j-active" 5).1 = .ok ∧
    (cancel_job [doneJob] "alice" "j-done" 5).1 = .invalidState "completed" ∧
    (cancel_job [doneJob] "alice" "j-done" 5).2 = [doneJob] := by
  have h1 := (c5_cancel [activeJob] "alice" "j-active" 5 activeJob (by decide) rfl).1
    (Or.inr rfl)
  have h2 := (c5_cancel [doneJob] "alice" "j-done" 5 doneJob (by decide) rfl).2
    (Or.inl rfl)
  exact ⟨h1.1, h2.1, h2.2⟩

/-- C6: when the raw log exceeds 10000 characters, the persisted logs
are exactly the first 10000 characters followed by the truncation
marker; and a job finalized as failed with a non-empty log stores the
first 500 characters of the raw log as its error message (the whole log
when it is 500 characters or shorter). -/
theorem c6_log_truncation (outcome : FetchOutcome) (st : Option ℚ) (now : ℚ) :
    (10000 < outcome.logs.length →
      (build_final_update outcome st now).logs =
        some (outcome.logs.take 10000 ++ truncation_marker)) ∧
    ((build_final_update outcome st now).status = "failed" → outcome.logs ≠ [] →
      (build_final_update outcome st now).error_message = some (outcome.logs.take 500) ∧
      (outcome.logs.length ≤ 500 →
        (build_final_update outcome st now).error_message = some outcome.logs)) := by
  constructor
  · intro hlong
    have hne : outcome.logs ≠ [] :=
      List.ne_nil_of_length_pos (lt_trans (by norm_num) hlong)
    have htr : truncate_logs outcome.logs = outcome.logs.take 10000 ++ truncation_marker := by
      unfold truncate_logs
      rw [if_pos hlong]
    simp only [build_final_update]
    rw [if_pos hne, htr]
  · intro hfail hne
    have hsucc : outcome.success = false := by
      by_contra hs
      have hs2 : outcome.success = true := eq_true_of_ne_false hs
      simp only [build_final_update, hs2, if_pos] at hfail
      exact absurd hfail (by decide)
    have hmarker : truncation_marker.length = 15 := by decide
    have h500 : (build_final_update outcome st now).error_message =
        some (outcome.logs.take 500) := by
      simp only [build_final_update]
      by_cases hlong : 10000 < outcome.logs.length
      · have htr : truncate_logs outcome.logs =
            outcome.logs.take 10000 ++ truncation_marker := by
          unfold truncate_logs
          rw [if_pos hlong]
        have hlen : (truncate_logs outcome.logs).length = 10015 := by
          rw [htr, List.length_append, List.length_take, hmarker]
          omega
        have htne : truncate_logs outcome.logs ≠ [] :=
          List.ne_nil_of_length_pos (by omega)
        rw [if_pos ⟨hsucc, htne⟩, if_pos (by omega)]
        rw [htr, List.take_append_of_le_length (by rw [List.length_take]; omega),
          List.take_take]
        norm_num
      · have htr : truncate_logs outcome.logs = outcome.logs := by
          unfold truncate_logs
          rw [if_neg hlong]
        have htne : truncate_logs outcome.logs ≠ [] := by rw [htr]; exact hne
        rw [if_pos ⟨hsucc, htne⟩, htr]
        by_cases h5 : 500 < outcome.logs.length
        · rw [if_pos h5]
        · rw [if_neg h5, List.take_of_length_le (le_of_not_lt h5)]
    refine ⟨h500, fun hshort => ?_⟩
    rw [h500, List.take_of_length_le hshort]

/-- A failure outcome carrying an 11000-character log. -/
def longOutcome : FetchOutcome := ⟨false, List.replicate 11000 'a', 0⟩

/-- Witness for C6 on an 11000-character log of a failed run: the
persisted logs are the first 10000 characters plus the marker, and the
error message is the first 500 characters. -/
theorem c6_log_truncation_witness :
    (build_final_update longOutcome none 0).logs =
      some (longOutcome.logs.take 10000 ++ truncation_marker) ∧
    (build_final_update longOutcome none 0).error_message =
      some (longOutcome.logs.take 500) := by
  have h := c6_log_truncation longOutcome none 0
  have hlen : 10000 < longOutcome.logs.length := by
    show 10000 < (List.replicate 11000 'a').length
    rw [List.length_replicate]
    norm_num
  have hne : longOutcome.logs ≠ [] := List.ne_nil_of_length_pos (by
    show 0 < (List.replicate 11000 'a').length
    rw [List.length_replicate]
    norm_num)
  exact ⟨h.1 hlen, (h.2 rfl hne).1⟩

/-- The stuck predicate holds for an old-enough running job of the user. -/
theorem stuck_pred_true {uid : String} {cutoff : ℚ} {j : Job} {s : ℚ}
    (hu : j.user_id = uid) (hst : j.status = "running")
    (hstart : j.start_time = some s) (hs : s < cutoff) :
    stuck_pred uid cutoff j = true := by
  simp [stuck_pred, hu, hst, hstart, hs]

/-- The stuck predicate fails for any job whose start time is recent. -/
theorem stuck_pred_false_of_recent {uid : String} {cutoff : ℚ} {j : Job} {s : ℚ}
    (hstart : j.start_time = some s) (hs : ¬ s < cutoff) :
    stuck_pred uid cutoff j = false := by
  simp [stuck_pred, hstart, hs]

/-- C7: the cleanup sweep reports the id of every running job of the
user started more than 30 minutes ago and rewrites it to failed with the
automatic-cleanup reason and end time now; every running job started
within the last 30 minutes is left unchanged; and the reported count
equals the number of reported ids. -/
theorem c7_reaper (store : List Job) (uid : String) (now : ℚ)
    (hnodup : (store.map (fun j => j.job_id)).Nodup) :
    (∀ j ∈ store, j.user_id = uid → j.status = "running" →
      ∀ s, j.start_time = some s → s < now - 1800 →
        j.job_id ∈ (cleanup_stuck_jobs store uid now).1.job_ids ∧
        { j with status := "failed", error_message := some cleanup_message,
                 end_time := some now, updated_at := some now } ∈
          (cleanup_stuck_jobs store uid now).2) ∧
    (∀ j ∈ store, j.status = "running" →
      ∀ s, j.start_time = some s → ¬ s < now - 1800 →
        j ∈ (cleanup_stuck_jobs store uid now).2) ∧
    (cleanup_stuck_jobs store uid now).1.cleaned =
      (cleanup_stuck_jobs store uid now).1.job_ids.length := by
  have hinj := List.inj_on_of_nodup_map hnodup
  by_cases hemp : (store.filter (stuck_pred uid (now - 1800))).isEmpty
  · have hres : cleanup_stuck_jobs store uid now = ({ cleaned := 0, job_ids := [] }, store) := by
      simp only [cleanup_stuck_jobs]
      rw [if_pos hemp]
    rw [hres]
    refine ⟨?_, fun j hj _ _ _ _ => hj, rfl⟩
    intro j hj hu hst s hstart hs
    exfalso
    have hmem : j ∈ store.filter (stuck_pred uid (now - 1800)) :=
      List.mem_filter.mpr ⟨hj, stuck_pred_true hu hst hstart hs⟩
    rw [List.isEmpty_iff.mp hemp] at hmem
    exact List.not_mem_nil j hmem
  · have hres : cleanup_stuck_jobs store uid now =
        ({ cleaned := (store.filter (fun (j : Job) => decide (j.job_id ∈
              (store.filter (stuck_pred uid (now - 1800))).map (fun j => j.job_id)))).length,
           job_ids := (store.filter (stuck_pred uid (now - 1800))).map (fun j => j.job_id) },
         store.map (fun (j : Job) =>
           if j.job_id ∈ (store.filter (stuck_pred uid (now - 1800))).map (fun j => j.job_id) then
             { j with status := "failed", error_message := some cleanup_message,
                      end_time := some now, updated_at := some now }
           else j)) := by
      simp only [cleanup_stuck_jobs]
      rw [if_neg hemp]
    have hid_mem : ∀ {j : Job}, j ∈ store →
        (j.job_id ∈ (store.filter (stuck_pred uid (now - 1800))).map (fun j => j.job_id) ↔
          stuck_pred uid (now - 1800) j = true) := by
      intro j hj
      constructor
      · intro hmem
        obtain ⟨j2, hj2, hid⟩ := List.mem_map.mp hmem
        obtain ⟨hj2s, hj2p⟩ := List.mem_filter.mp hj2
        have : j2 = j := hinj hj2s hj hid
        exact this ▸ hj2p
      · intro hp
        exact List.mem_map_of_mem _ (List.mem_filter.mpr ⟨hj, hp⟩)
    rw [hres]
    refine ⟨?_, ?_, ?_⟩
    · intro j hj hu hst s hstart hs
      have hp : stuck_pred uid (now - 1800) j = true := stuck_pred_true hu hst hstart hs
      have hmem := (hid_mem hj).mpr hp
      refine ⟨hmem, List.mem_map.mpr ⟨j, hj, ?_⟩⟩
      rw [if_pos hmem]
    · intro j hj hst s hstart hs
      have hp : stuck_pred uid (now - 1800) j = false :=
        stuck_pred_false_of_recent hstart hs
      have hnot : ¬ j.job_id ∈ (store.filter (stuck_pred uid (now - 1800))).map
          (fun j => j.job_id) := by
        intro hmem
        rw [(hid_mem hj).mp hmem] at hp
        exact absurd hp (by decide)
      exact List.mem_map.mpr ⟨j, hj, by rw [if_neg hnot]⟩
    · have hfc : store.filter (fun (j : Job) => decide (j.job_id ∈
          (store.filter (stuck_pred uid (now - 1800))).map (fun j => j.job_id))) =
          store.filter (stuck_pred uid (now - 1800)) := by
        apply List.filter_congr
        intro x hx
        by_cases hmem : x.job_id ∈ (store.filter (stuck_pred uid (now - 1800))).map
            (fun j => j.job_id)
        · rw [decide_eq_true hmem, ((hid_mem hx).mp hmem)]
        · rw [decide_eq_false hmem]
          cases hpx : stuck_pred uid (now - 1800) x
          · rfl
          · exact absurd ((hid_mem hx).mpr hpx) hmem
      simp only [hfc, List.length_map]

/-- A running job of alice started long before the cleanup cutoff. -/
def oldRunningJob : Job :=
  { job_id := "j-old", user_id := "alice", status := "running", start_time := some 0 }

/-- A running job of alice started within the cleanup window. -/
def recentRunningJob : Job :=
  { job_id := "j-recent", user_id := "alice", status := "running", start_time := some 9000 }

/-- Witness for C7 at time 10000: the job started at 0 (8200 seconds
before the cutoff) is reported and force-failed, and the job started at
9000 is untouched. -/
theorem c7_reaper_witness :
    "j-old" ∈ (cleanup_stuck_jobs [oldRunningJob, recentRunningJob] "alice" 10000).1.job_ids ∧
    { oldRunningJob with
      status := "failed",
      error_message := some cleanup_message,
      end_time := some (10000:ℚ),
      updated_at := some (10000:ℚ) } ∈
      (cleanup_stuck_jobs [oldRunningJob, recentRunningJob] "alice" 10000).2 ∧
    recentRunningJob ∈ (cleanup_stuck_jobs [oldRunningJob, recentRunningJob] "alice" 10000).2 := by
  have h := c7_reaper [oldRunningJob, recentRunningJob] "alice" 10000 (by decide)
  have h1 := h.1 oldRunningJob (by decide) rfl rfl 0 rfl (by norm_num)
  have h2 := h.2.1 recentRunningJob (by decide) rfl 9000 rfl (by norm_num)
  exact ⟨h1.1, h1.2, h2⟩

end AdsJobs
